import Mathlib

/-!
Verification of the OVP webcam-filter program (src/main.cpp) against its
natural-language specification.

The program is a thin orchestration of an imaging library (OpenCV): it captures
frames, applies a toggleable chain of image operations, displays and optionally
records the result.  We shallowly embed the repository code:

* `Algorithms` and `ProcessingParameters` mirror the two C structs.
* A `Frame` is a grid of pixels; each pixel is a list of 8-bit channel values
  (`Fin 256`), matching the `CV_8U` mats the program manipulates.
* Library operations whose pixel-level behaviour the program relies on
  (`convertTo`, `flip`, `rotate`) are modelled concretely; the remaining
  library operations (GaussianBlur, Canny, Sobel, addWeighted, cvtColor,
  resize), which the spec declares external collaborators, are abstract
  functions collected in `CVOps`, with the numeric arguments the program
  passes to them made explicit.
* `updateToggles`, `assertValidGaussianSize`, `assertValidCannyHighThreshold`
  and `applyProcessing` are translated statement by statement from main.cpp.
* The capture source is a stream of frames with a read cursor; the pre-loop
  reads of `openVideoRecorder` and `spawnTrackbars` are modelled as cursor
  advances.
-/

/-- Mirror of the C struct `algorithms` (main.cpp lines 3-18): the toggle
state.  `rotationsBy90` is a C `int`, hence `ℤ`. -/
structure Algorithms where
  capture : Bool
  gaussian : Bool
  canny : Bool
  sobel : Bool
  brightness : Bool
  contrast : Bool
  negative : Bool
  grayscale : Bool
  halfSizeX : Bool
  halfSizeY : Bool
  rotationsBy90 : ℤ
  mirrorX : Bool
  mirrorY : Bool
  record : Bool
  deriving DecidableEq, Repr

/-- Mirror of the C struct `processingParameters` (main.cpp lines 20-25); all
fields are C `int`s. -/
structure ProcessingParameters where
  gaussianSize : ℤ
  cannyHighThreshold : ℤ
  brightness : ℤ
  contrast : ℤ
  deriving DecidableEq, Repr

/-- A frame: rows of pixels, each pixel a list of 8-bit channel values,
modelling a `CV_8U` `cv::Mat`. -/
structure Frame where
  rows : List (List (List (Fin 256)))
  deriving DecidableEq, Repr

/-- Channel count of a frame, as `cv::Mat::channels()`: the number of channel
values of a pixel (0 for an empty frame). -/
def Frame.channels (f : Frame) : ℕ :=
  (((f.rows.headD []).headD [])).length

/-- Map a function over every channel value of every pixel. -/
def Frame.map (g : Fin 256 → Fin 256) (f : Frame) : Frame :=
  ⟨f.rows.map (fun row => row.map (fun px => px.map g))⟩

/-- OpenCV rounding (`cvRound`): round to nearest, ties to even. -/
def cvRound (q : ℚ) : ℤ :=
  if q - ⌊q⌋ < 1/2 then ⌊q⌋
  else if 1/2 < q - ⌊q⌋ then ⌊q⌋ + 1
  else if ⌊q⌋ % 2 = 0 then ⌊q⌋ else ⌊q⌋ + 1

/-- `saturate_cast<uchar>`: round to nearest integer and clamp to [0, 255]. -/
def satCastU8 (q : ℚ) : Fin 256 :=
  ⟨(min 255 (max 0 (cvRound q))).toNat, by omega⟩

/-- `cv::Mat::convertTo` at the same 8-bit depth: every channel value `v`
becomes `saturate_cast<uchar>(alpha*v + beta)`. -/
def convertTo (alpha beta : ℚ) (f : Frame) : Frame :=
  f.map (fun v => satCastU8 (alpha * (v.val : ℚ) + beta))

/-- `cv::flip` with code 0 (around the x axis): reverse the row order. -/
def flipX (f : Frame) : Frame := ⟨f.rows.reverse⟩

/-- `cv::flip` with code 1 (around the y axis): reverse each row. -/
def flipY (f : Frame) : Frame := ⟨f.rows.map List.reverse⟩

/-- `cv::flip` with code -1: one combined flip around both axes,
`dst(i, j) = src(rows-1-i, cols-1-j)`, realised as one pass that reverses
each row and the row order together. -/
def flipBoth (f : Frame) : Frame := ⟨(f.rows.map List.reverse).reverse⟩

/-- `cv::rotate` with `ROTATE_90_CLOCKWISE`: `dst(i, j) = src(rows-1-j, i)`,
realised as reversing the rows and transposing. -/
def rot90cw (f : Frame) : Frame := ⟨(f.rows.reverse).transpose⟩

/-- The imaging-library operations the program calls but whose pixel-level
behaviour it does not depend on; the spec treats the library as an external
collaborator.  Numeric arguments mirror the call sites in `applyProcessing`:
Gaussian kernel width and height; Canny high and low thresholds; Sobel x- and
y-derivative orders; `addWeighted` weights and offset; `resize` x and y scale
factors. -/
structure CVOps where
  gaussianBlur : ℤ → ℤ → Frame → Frame
  canny : ℚ → ℚ → Frame → Frame
  sobel : ℕ → ℕ → Frame → Frame
  addWeighted : Frame → ℚ → Frame → ℚ → ℚ → Frame
  cvtColorGray : Frame → Frame
  resize : ℚ → ℚ → Frame → Frame

/-- Trivial instantiation of the abstract library operations (each returns a
frame unchanged); used only to evaluate the embedding on concrete inputs in
scenarios where no abstract operation is toggled on. -/
def idOps : CVOps :=
  ⟨fun _ _ f => f, fun _ _ f => f, fun _ _ f => f, fun f _ _ _ _ => f,
   fun f => f, fun _ _ f => f⟩

/-- Translation of `applyProcessing` (main.cpp lines 178-251), statement by
statement.  The rotation loop `for (rots = 0; rots < rotationsBy90; rots++)`
executes `rotationsBy90.toNat` times.  The mirror block is the source's
two-branch form: a single combined flip when both toggles are set, otherwise
two sequential conditional single-axis flips. -/
def applyProcessing (ops : CVOps) (toggles : Algorithms)
    (parameters : ProcessingParameters) (frame : Frame) : Frame :=
  let frame := if toggles.gaussian then
    ops.gaussianBlur parameters.gaussianSize parameters.gaussianSize frame else frame
  let frame := if toggles.canny then
    ops.canny (parameters.cannyHighThreshold : ℚ)
      ((parameters.cannyHighThreshold : ℚ) / 3) frame else frame
  let frame := if toggles.sobel then
    ops.addWeighted (ops.sobel 1 0 frame) (1/2) (ops.sobel 0 1 frame) (1/2) 0
    else frame
  let frame := if toggles.brightness then
    convertTo 1 ((parameters.brightness : ℚ) - 255) frame else frame
  let frame := if toggles.contrast then
    convertTo ((parameters.contrast : ℚ) / 100) 0 frame else frame
  let frame := if toggles.negative then
    convertTo (-1) 255 frame else frame
  let frame := if toggles.grayscale then
    (if frame.channels = 3 then ops.cvtColorGray frame else frame) else frame
  let frame := if toggles.halfSizeX then ops.resize (1/2) 1 frame else frame
  let frame := if toggles.halfSizeY then ops.resize 1 (1/2) frame else frame
  let frame := rot90cw^[toggles.rotationsBy90.toNat] frame
  if toggles.mirrorX && toggles.mirrorY then flipBoth frame
  else
    let frame := if toggles.mirrorX then flipX frame else frame
    if toggles.mirrorY then flipY frame else frame

/-- A pipeline stage gated by its toggle: applied when the toggle is set,
leaving the frame unchanged otherwise. -/
def gate (b : Bool) (op : Frame → Frame) : Frame → Frame :=
  fun f => if b then op f else f

/-- The mirroring stage as the spec words it: one combined flip when both
axis flags are set, otherwise the single-axis flip of whichever flag is set. -/
def mirrorStage (x y : Bool) (f : Frame) : Frame :=
  if x && y then flipBoth f
  else if x then flipX f
  else if y then flipY f
  else f

/-- The spec's pipeline (spec section 4.2): the eleven stages in their fixed
order, each gated by its toggle; rotation applies the 90-degree clockwise
rotation exactly `rotationsBy90` times. -/
def specStages (ops : CVOps) (toggles : Algorithms)
    (parameters : ProcessingParameters) : List (Frame → Frame) :=
  [ gate toggles.gaussian
      (ops.gaussianBlur parameters.gaussianSize parameters.gaussianSize)
  , gate toggles.canny
      (ops.canny (parameters.cannyHighThreshold : ℚ)
        ((parameters.cannyHighThreshold : ℚ) / 3))
  , gate toggles.sobel
      (fun f => ops.addWeighted (ops.sobel 1 0 f) (1/2) (ops.sobel 0 1 f) (1/2) 0)
  , gate toggles.brightness (convertTo 1 ((parameters.brightness : ℚ) - 255))
  , gate toggles.contrast (convertTo ((parameters.contrast : ℚ) / 100) 0)
  , gate toggles.negative (convertTo (-1) 255)
  , gate toggles.grayscale
      (fun f => if f.channels = 3 then ops.cvtColorGray f else f)
  , gate toggles.halfSizeX (ops.resize (1/2) 1)
  , gate toggles.halfSizeY (ops.resize 1 (1/2))
  , fun f => rot90cw^[toggles.rotationsBy90.toNat] f
  , mirrorStage toggles.mirrorX toggles.mirrorY ]

/-- Sequential application of the spec's gated stages, in order. -/
def specProcess (ops : CVOps) (toggles : Algorithms)
    (parameters : ProcessingParameters) (frame : Frame) : Frame :=
  (specStages ops toggles parameters).foldl (fun acc st => st acc) frame

/-- Translation of `updateToggles` (main.cpp lines 103-164): dispatch on the
key code returned by `waitKey`. -/
def updateToggles (key : ℤ) (t : Algorithms) : Algorithms :=
  if key = 27 then { t with capture := false }
  else if key = 49 then { t with gaussian := !t.gaussian }
  else if key = 50 then { t with canny := !t.canny }
  else if key = 51 then { t with sobel := !t.sobel }
  else if key = 52 then { t with brightness := !t.brightness }
  else if key = 53 then { t with contrast := !t.contrast }
  else if key = 54 then { t with negative := !t.negative }
  else if key = 55 then { t with grayscale := !t.grayscale }
  else if key = 56 then { t with halfSizeX := !t.halfSizeX }
  else if key = 57 then { t with halfSizeY := !t.halfSizeY }
  else if key = 65 then { t with rotationsBy90 := (t.rotationsBy90 + 1).tmod 4 }
  else if key = 66 then { t with mirrorX := !t.mirrorX }
  else if key = 67 then { t with mirrorY := !t.mirrorY }
  else if key = 68 then { t with record := !t.record }
  else t

/-- Translation of `assertValidGaussianSize` (main.cpp lines 166-170): if the
value is even, increment it; then if it is below 3, clamp it to 3.  C++ `%`
truncates, hence `Int.tmod`. -/
def assertValidGaussianSize (v : ℤ) : ℤ :=
  let v1 := if v.tmod 2 = 0 then v + 1 else v
  if v1 < 3 then 3 else v1

/-- Translation of `assertValidCannyHighThreshold` (main.cpp lines 172-176). -/
def assertValidCannyHighThreshold (v : ℤ) : ℤ :=
  if v < 0 then 0
  else if v > 255 then 255
  else v

/-- The initial toggle state, `Algorithms toggles = {true, false}` (main.cpp
line 51): aggregate initialisation sets `capture` to true, `gaussian` to
false, and value-initialises every remaining member to false / 0. -/
def initToggles : Algorithms :=
  ⟨true, false, false, false, false, false, false, false, false, false, 0,
   false, false, false⟩

/-- The initial parameter store, `ProcessingParameters parameters =
{3, 255, 255, 1}` (main.cpp line 52). -/
def initialParameters : ProcessingParameters := ⟨3, 255, 255, 1⟩

/-- Toggle states reachable by the program: the initial state, closed under
one `updateToggles` step for an arbitrary key code. -/
inductive ReachableToggles : Algorithms → Prop where
  | init : ReachableToggles initToggles
  | step (key : ℤ) (t : Algorithms) (h : ReachableToggles t) :
      ReachableToggles (updateToggles key t)

/-- The capture source: a stream of frames and a read cursor.  `cap >> frame`
returns the frame at the cursor and advances it. -/
structure CaptureSource where
  stream : ℕ → Frame
  pos : ℕ

/-- One `cap >> frame` read. -/
def capRead (c : CaptureSource) : Frame × CaptureSource :=
  (c.stream c.pos, { c with pos := c.pos + 1 })

/-- Translation of `openVideoRecorder` (main.cpp lines 83-89): reads one frame
from the capture source, unconditionally, and fixes the recorder's colour
mode from that frame's channel count. -/
def openVideoRecorder (c : CaptureSource) : Bool × CaptureSource :=
  let r := capRead c
  (r.1.channels = 3, r.2)

/-- Translation of `spawnTrackbars` (main.cpp lines 91-101): reads one frame
from the capture source, unconditionally, to display the processed-feed
window; the trackbar registrations do not touch the source. -/
def spawnTrackbars (c : CaptureSource) : CaptureSource :=
  (capRead c).2

/-- The part of `main` before the capture loop (main.cpp lines 44-55): open
the recorder, then spawn the trackbars, each consuming one frame. -/
def mainPreLoop (c : CaptureSource) : CaptureSource :=
  spawnTrackbars (openVideoRecorder c).2

/-- The first frame the capture loop pulls (main.cpp line 58, first
iteration). -/
def firstLoopFrame (c : CaptureSource) : Frame :=
  (capRead (mainPreLoop c)).1

/-- The running toggle state in which only the brightness operation is
active: every processing toggle of `initToggles` is off, brightness on. -/
def brightnessOnlyToggles : Algorithms :=
  { initToggles with brightness := true }

/-- The running toggle state in which only the contrast operation is
active. -/
def contrastOnlyToggles : Algorithms :=
  { initToggles with contrast := true }

/-- The running toggle state in which exactly the two mirror toggles are
set. -/
def mirrorBothToggles : Algorithms :=
  { initToggles with mirrorX := true, mirrorY := true }

/-- A one-pixel single-channel frame with channel value 200. -/
def pixel200Frame : Frame := ⟨[[[(200 : Fin 256)]]]⟩

/-- The stopped toggle state: the initial state with `capture` already
cleared. -/
def stoppedToggles : Algorithms := { initToggles with capture := false }

theorem cvRound_intCast (n : ℤ) : cvRound ((n : ℚ)) = n := by
  unfold cvRound
  rw [Int.floor_intCast]
  norm_num

theorem cvRound_le_floor_add_one (q : ℚ) : cvRound q ≤ ⌊q⌋ + 1 := by
  unfold cvRound
  split_ifs <;> omega

theorem floor_le_cvRound (q : ℚ) : ⌊q⌋ ≤ cvRound q := by
  unfold cvRound
  split_ifs <;> omega

theorem satCastU8_val_intCast (n : ℤ) (h0 : 0 ≤ n) (h1 : n ≤ 255) :
    (satCastU8 ((n : ℚ))).val = n.toNat := by
  unfold satCastU8
  show (min 255 (max 0 (cvRound ((n : ℚ))))).toNat = n.toNat
  rw [cvRound_intCast]
  omega

theorem satCastU8_coe (v : Fin 256) : satCastU8 (((v : ℕ) : ℚ)) = v := by
  have hlt : (v : ℕ) < 256 := v.isLt
  apply Fin.ext
  have h : (((v : ℕ) : ℚ)) = ((((v : ℕ) : ℤ) : ℚ)) := by push_cast; ring
  rw [h, satCastU8_val_intCast ((v : ℕ) : ℤ) (by omega) (by omega)]
  omega

theorem Frame.map_congrFun (g1 g2 : Fin 256 → Fin 256) (h : ∀ v, g1 v = g2 v)
    (f : Frame) : f.map g1 = f.map g2 := by
  have hg : g1 = g2 := funext h
  rw [hg]

theorem Frame.map_fixpoints (g : Fin 256 → Fin 256) (h : ∀ v, g v = v)
    (f : Frame) : f.map g = f := by
  have hg : g = id := funext h
  rw [hg]
  simp [Frame.map, List.map_id]

theorem flipBoth_eq_flipY_flipX (f : Frame) : flipBoth f = flipY (flipX f) := by
  simp [flipBoth, flipX, flipY, List.map_reverse]

theorem updateToggles_rotKey (t : Algorithms) :
    updateToggles 65 t =
      { t with rotationsBy90 := (t.rotationsBy90 + 1).tmod 4 } := rfl

theorem updateToggles_rot_of_ne (key : ℤ) (t : Algorithms) (hk : key ≠ 65) :
    (updateToggles key t).rotationsBy90 = t.rotationsBy90 := by
  unfold updateToggles
  by_cases h27 : key = 27
  · subst h27; rfl
  rw [if_neg h27]
  by_cases h49 : key = 49
  · subst h49; rfl
  rw [if_neg h49]
  by_cases h50 : key = 50
  · subst h50; rfl
  rw [if_neg h50]
  by_cases h51 : key = 51
  · subst h51; rfl
  rw [if_neg h51]
  by_cases h52 : key = 52
  · subst h52; rfl
  rw [if_neg h52]
  by_cases h53 : key = 53
  · subst h53; rfl
  rw [if_neg h53]
  by_cases h54 : key = 54
  · subst h54; rfl
  rw [if_neg h54]
  by_cases h55 : key = 55
  · subst h55; rfl
  rw [if_neg h55]
  by_cases h56 : key = 56
  · subst h56; rfl
  rw [if_neg h56]
  by_cases h57 : key = 57
  · subst h57; rfl
  rw [if_neg h57, if_neg hk]
  by_cases h66 : key = 66
  · subst h66; rfl
  rw [if_neg h66]
  by_cases h67 : key = 67
  · subst h67; rfl
  rw [if_neg h67]
  by_cases h68 : key = 68
  · subst h68; rfl
  rw [if_neg h68]

theorem updateToggles_capture_of_ne (key : ℤ) (t : Algorithms) (hk : key ≠ 27) :
    (updateToggles key t).capture = t.capture := by
  unfold updateToggles
  rw [if_neg hk]
  by_cases h49 : key = 49
  · subst h49; rfl
  rw [if_neg h49]
  by_cases h50 : key = 50
  · subst h50; rfl
  rw [if_neg h50]
  by_cases h51 : key = 51
  · subst h51; rfl
  rw [if_neg h51]
  by_cases h52 : key = 52
  · subst h52; rfl
  rw [if_neg h52]
  by_cases h53 : key = 53
  · subst h53; rfl
  rw [if_neg h53]
  by_cases h54 : key = 54
  · subst h54; rfl
  rw [if_neg h54]
  by_cases h55 : key = 55
  · subst h55; rfl
  rw [if_neg h55]
  by_cases h56 : key = 56
  · subst h56; rfl
  rw [if_neg h56]
  by_cases h57 : key = 57
  · subst h57; rfl
  rw [if_neg h57]
  by_cases h65 : key = 65
  · subst h65; rfl
  rw [if_neg h65]
  by_cases h66 : key = 66
  · subst h66; rfl
  rw [if_neg h66]
  by_cases h67 : key = 67
  · subst h67; rfl
  rw [if_neg h67]
  by_cases h68 : key = 68
  · subst h68; rfl
  rw [if_neg h68]

theorem reachable_rot_bound {t : Algorithms} (h : ReachableToggles t) :
    0 ≤ t.rotationsBy90 ∧ t.rotationsBy90 < 4 := by
  induction h with
  | init => norm_num [initToggles]
  | step key t h ih =>
      obtain ⟨h0, h4⟩ := ih
      by_cases hk : key = 65
      · subst hk
        rw [updateToggles_rotKey]
        show 0 ≤ (t.rotationsBy90 + 1).tmod 4 ∧ (t.rotationsBy90 + 1).tmod 4 < 4
        rw [Int.tmod_eq_emod (by omega) (by norm_num)]
        omega
      · rw [updateToggles_rot_of_ne key t hk]
        exact ⟨h0, h4⟩

theorem mirror_code_eq_stage (x y : Bool) (f : Frame) :
    (if x && y then flipBoth f
     else if y then flipY (if x then flipX f else f)
     else (if x then flipX f else f)) = mirrorStage x y f := by
  cases x <;> cases y <;> rfl

/-- Claim C1: for every frame, toggle state and parameter store,
`applyProcessing` applies exactly the active operations in the fixed order
blur, Canny (low threshold = high/3), Sobel (0.5/0.5 weights), brightness
offset (brightness - 255), contrast multiply (contrast/100), negative,
grayscale, half-width resize, half-height resize, `rotationsBy90` discrete
90-degree clockwise rotations, then mirroring; a stage whose toggle is unset
leaves the frame unchanged: the code equals the spec's pipeline of gated
stages folded in order. -/
theorem applyProcessing_eq_specProcess (ops : CVOps) (toggles : Algorithms)
    (parameters : ProcessingParameters) (frame : Frame) :
    applyProcessing ops toggles parameters frame =
      specProcess ops toggles parameters frame := by
  unfold applyProcessing specProcess specStages
  simp only [List.foldl_cons, List.foldl_nil, gate]
  exact mirror_code_eq_stage toggles.mirrorX toggles.mirrorY _

/-- Claim C2 counterexample: the input 0 is even, yet the stored result is 3,
not 0 + 1 = 1 (the below-3 clamp runs after the even increment). -/
theorem blurSize_claim_counterexample :
    (0 : ℤ) % 2 = 0 ∧ assertValidGaussianSize 0 ≠ 0 + 1 := by decide

theorem assertValidGaussianSize_eq (v : ℤ) :
    assertValidGaussianSize v =
      (if (if v.tmod 2 = 0 then v + 1 else v) < 3 then 3
       else (if v.tmod 2 = 0 then v + 1 else v)) := rfl

/-- Claim C2 (amended): for every integer input v to the blur-size validator:
if v is even and v is at least 2 the stored result is v + 1; if v is even and
v is below 2 the stored result is 3; if v is odd and v is below 3 the stored
result is 3; if v is odd and v is at least 3 the stored result is v. -/
theorem assertValidGaussianSize_cases (v : ℤ) :
    (v % 2 = 0 → 2 ≤ v → assertValidGaussianSize v = v + 1) ∧
    (v % 2 = 0 → v < 2 → assertValidGaussianSize v = 3) ∧
    (v % 2 ≠ 0 → v < 3 → assertValidGaussianSize v = 3) ∧
    (v % 2 ≠ 0 → 3 ≤ v → assertValidGaussianSize v = v) := by
  have htm : v.tmod 2 = 0 ↔ v % 2 = 0 := by
    rw [show ((v.tmod 2 = 0) ↔ (2 : ℤ) ∣ v) from
      ⟨Int.dvd_of_tmod_eq_zero, Int.tmod_eq_zero_of_dvd⟩]
    omega
  rw [assertValidGaussianSize_eq]
  by_cases hc : v.tmod 2 = 0
  · have hev : v % 2 = 0 := htm.mp hc
    rw [if_pos hc]
    by_cases h3 : v + 1 < 3
    · rw [if_pos h3]
      exact ⟨fun _ h2 => absurd h3 (by omega), fun _ _ => rfl,
        fun ho => absurd hev ho, fun ho => absurd hev ho⟩
    · rw [if_neg h3]
      exact ⟨fun _ _ => rfl, fun _ h2 => absurd h3 (by omega),
        fun ho => absurd hev ho, fun ho => absurd hev ho⟩
  · have hod : ¬(v % 2 = 0) := fun hx => hc (htm.mpr hx)
    rw [if_neg hc]
    by_cases h3 : v < 3
    · rw [if_pos h3]
      exact ⟨fun hev => absurd hev hod, fun hev => absurd hev hod,
        fun _ _ => rfl, fun _ hge => absurd h3 (by omega)⟩
    · rw [if_neg h3]
      exact ⟨fun hev => absurd hev hod, fun hev => absurd hev hod,
        fun _ hlt => absurd h3 (by omega), fun _ _ => rfl⟩

/-- Claim C2 witness: the amended cases evaluated at 4, 0, 1 and 7. -/
theorem assertValidGaussianSize_cases_witness :
    assertValidGaussianSize 4 = 5 ∧ assertValidGaussianSize 0 = 3 ∧
    assertValidGaussianSize 1 = 3 ∧ assertValidGaussianSize 7 = 7 :=
  ⟨(assertValidGaussianSize_cases 4).1 (by decide) (by decide),
   (assertValidGaussianSize_cases 0).2.1 (by decide) (by decide),
   (assertValidGaussianSize_cases 1).2.2.1 (by decide) (by decide),
   (assertValidGaussianSize_cases 7).2.2.2 (by decide) (by decide)⟩

/-- Claim C3: in every reachable toggle state, `rotationsBy90` lies in
{0,1,2,3}; one press of the rotate key (code 65) sets it to (n+1) mod 4; and
four consecutive presses return it to its original value. -/
theorem rotationQuadrants_transition (s : Algorithms)
    (hs : ReachableToggles s) :
    s.rotationsBy90 ∈ ({0, 1, 2, 3} : Set ℤ) ∧
    (updateToggles 65 s).rotationsBy90 = (s.rotationsBy90 + 1) % 4 ∧
    ((updateToggles 65)^[4] s).rotationsBy90 = s.rotationsBy90 := by
  obtain ⟨h0, h4⟩ := reachable_rot_bound hs
  refine ⟨?_, ?_, ?_⟩
  · simp only [Set.mem_insert_iff, Set.mem_singleton_iff]
    omega
  · rw [updateToggles_rotKey]
    show (s.rotationsBy90 + 1).tmod 4 = (s.rotationsBy90 + 1) % 4
    exact Int.tmod_eq_emod (by omega) (by norm_num)
  · show ((((s.rotationsBy90 + 1).tmod 4 + 1).tmod 4 + 1).tmod 4 + 1).tmod 4 =
      s.rotationsBy90
    set n := s.rotationsBy90 with hn
    interval_cases n <;> decide

/-- Claim C3 witness: the three properties instantiated at the initial
toggle state, which is reachable by construction. -/
theorem rotationQuadrants_transition_witness :
    initToggles.rotationsBy90 ∈ ({0, 1, 2, 3} : Set ℤ) ∧
    (updateToggles 65 initToggles).rotationsBy90 =
      (initToggles.rotationsBy90 + 1) % 4 ∧
    ((updateToggles 65)^[4] initToggles).rotationsBy90 =
      initToggles.rotationsBy90 :=
  rotationQuadrants_transition initToggles ReachableToggles.init

/-- Claim C4: for every toggle state with `capture` = true, the ESC key
(code 27) sets `capture` to false and leaves every other field of the toggle
state unchanged. -/
theorem esc_clears_capture_only (s : Algorithms) (h : s.capture = true) :
    updateToggles 27 s = { s with capture := false } := rfl

/-- Claim C4 witness: ESC applied to the initial (capturing) state. -/
theorem esc_clears_capture_only_witness :
    updateToggles 27 initToggles = { initToggles with capture := false } :=
  esc_clears_capture_only initToggles rfl

/-- Claim C5: with exactly the two mirror toggles set, the processor output
is the single combined dual-axis flip of the input, and that output also
equals an x-axis flip followed by an independent y-axis flip. -/
theorem mirror_both_single_combined_flip (ops : CVOps)
    (parameters : ProcessingParameters) (frame : Frame) :
    applyProcessing ops mirrorBothToggles parameters frame = flipBoth frame ∧
    applyProcessing ops mirrorBothToggles parameters frame =
      flipY (flipX frame) := by
  have h1 : applyProcessing ops mirrorBothToggles parameters frame =
      flipBoth frame := rfl
  exact ⟨h1, h1.trans (flipBoth_eq_flipY_flipX frame)⟩

/-- Claim C6: with only the brightness toggle set and brightness parameter
255 (neutral offset 0), the processor output is pixel-identical to the input;
with only the contrast toggle set and contrast parameter 100 (neutral factor
1), the output is pixel-identical to the input. -/
theorem neutral_brightness_contrast_identity :
    (∀ (ops : CVOps) (g th c : ℤ) (frame : Frame),
        applyProcessing ops brightnessOnlyToggles ⟨g, th, 255, c⟩ frame =
          frame) ∧
    (∀ (ops : CVOps) (g th b : ℤ) (frame : Frame),
        applyProcessing ops contrastOnlyToggles ⟨g, th, b, 100⟩ frame =
          frame) := by
  constructor
  · intro ops g th c frame
    show convertTo 1 (((255 : ℤ) : ℚ) - 255) frame = frame
    unfold convertTo
    apply Frame.map_fixpoints
    intro v
    have hq : (1 : ℚ) * ((v : ℕ) : ℚ) + (((255 : ℤ) : ℚ) - 255) =
        ((v : ℕ) : ℚ) := by push_cast; ring
    rw [hq, satCastU8_coe]
  · intro ops g th b frame
    show convertTo (((100 : ℤ) : ℚ) / 100) 0 frame = frame
    unfold convertTo
    apply Frame.map_fixpoints
    intro v
    have hq : (((100 : ℤ) : ℚ) / 100) * ((v : ℕ) : ℚ) + 0 =
        ((v : ℕ) : ℚ) := by push_cast; ring
    rw [hq, satCastU8_coe]

/-- Claim C7: the edge-threshold validator clamps its integer input to
[0, 255]: the result is v for v in range, 0 below, 255 above. -/
theorem assertValidCannyHighThreshold_clamp (v : ℤ) :
    assertValidCannyHighThreshold v = max 0 (min 255 v) ∧
    (v < 0 → assertValidCannyHighThreshold v = 0) ∧
    (255 < v → assertValidCannyHighThreshold v = 255) ∧
    (0 ≤ v → v ≤ 255 → assertValidCannyHighThreshold v = v) := by
  unfold assertValidCannyHighThreshold
  split_ifs <;>
    exact ⟨by omega, fun h => by omega, fun h => by omega,
      fun h1 h2 => by omega⟩

/-- Claim C7 witness: the clamp cases evaluated at -7, 300 and 100. -/
theorem assertValidCannyHighThreshold_clamp_witness :
    assertValidCannyHighThreshold (-7) = 0 ∧
    assertValidCannyHighThreshold 300 = 255 ∧
    assertValidCannyHighThreshold 100 = 100 :=
  ⟨(assertValidCannyHighThreshold_clamp (-7)).2.1 (by decide),
   (assertValidCannyHighThreshold_clamp 300).2.2.1 (by decide),
   (assertValidCannyHighThreshold_clamp 100).2.2.2 (by decide) (by decide)⟩

/-- Claim C8: capture = false is terminal and reachable only via ESC: every
key other than 27 leaves `capture` unchanged, and no key ever turns
`capture` from false back to true. -/
theorem capture_false_terminal (key : ℤ) (s : Algorithms) :
    (key ≠ 27 → (updateToggles key s).capture = s.capture) ∧
    (s.capture = false → (updateToggles key s).capture = false) := by
  constructor
  · exact updateToggles_capture_of_ne key s
  · intro hc
    by_cases hk : key = 27
    · subst hk; rfl
    · rw [updateToggles_capture_of_ne key s hk, hc]

/-- Claim C8 witness: a non-ESC key preserves `capture` in the running state,
and both a non-ESC key and ESC leave a stopped state stopped. -/
theorem capture_false_terminal_witness :
    (updateToggles 49 initToggles).capture = initToggles.capture ∧
    (updateToggles 49 stoppedToggles).capture = false ∧
    (updateToggles 27 stoppedToggles).capture = false :=
  ⟨(capture_false_terminal 49 initToggles).1 (by decide),
   (capture_false_terminal 49 stoppedToggles).2 rfl,
   (capture_false_terminal 27 stoppedToggles).2 rfl⟩

/-- Claim C9: at startup the stored contrast parameter is 1, not the neutral
100; with the contrast toggle enabled and the untouched initial parameters,
the processor multiplies every channel value by 1/100 (then rounds and
saturates), every resulting channel value is at most 3 (near black), and on a
concrete frame the output differs from the input. -/
theorem contrast_initialized_to_one_near_black :
    initialParameters.contrast = 1 ∧ initialParameters.contrast ≠ 100 ∧
    (∀ (ops : CVOps) (frame : Frame),
        applyProcessing ops contrastOnlyToggles initialParameters frame =
          frame.map (fun v => satCastU8 ((1 / 100 : ℚ) * ((v : ℕ) : ℚ)))) ∧
    (∀ v : Fin 256, (satCastU8 ((1 / 100 : ℚ) * ((v : ℕ) : ℚ))).val ≤ 3) ∧
    applyProcessing idOps contrastOnlyToggles initialParameters pixel200Frame ≠
      pixel200Frame := by
  refine ⟨rfl, by decide, ?_, ?_, ?_⟩
  · intro ops frame
    show convertTo (((1 : ℤ) : ℚ) / 100) 0 frame = _
    unfold convertTo
    apply Frame.map_congrFun
    intro v
    have hq : (((1 : ℤ) : ℚ) / 100) * ((v : ℕ) : ℚ) + 0 =
        (1 / 100 : ℚ) * ((v : ℕ) : ℚ) := by push_cast; ring
    rw [hq]
  · intro v
    have hv : ((v : ℕ) : ℚ) ≤ 255 := by
      have hlt := v.isLt
      exact_mod_cast Nat.lt_succ_iff.mp hlt
    have hq : (1 / 100 : ℚ) * ((v : ℕ) : ℚ) < 3 := by linarith
    have hfl : ⌊(1 / 100 : ℚ) * ((v : ℕ) : ℚ)⌋ < 3 :=
      Int.floor_lt.mpr (by exact_mod_cast hq)
    have hcv := cvRound_le_floor_add_one ((1 / 100 : ℚ) * ((v : ℕ) : ℚ))
    unfold satCastU8
    show (min 255 (max 0 (cvRound ((1 / 100 : ℚ) * ((v : ℕ) : ℚ))))).toNat ≤ 3
    omega
  · intro hcontra
    have harg : (((1 : ℤ) : ℚ) / 100) * (((200 : Fin 256) : ℕ) : ℚ) + 0 =
        ((2 : ℤ) : ℚ) := by
      rw [show ((200 : Fin 256) : ℕ) = 200 from rfl]
      push_cast
      norm_num
    have hpx : satCastU8 ((((1 : ℤ) : ℚ) / 100) *
        (((200 : Fin 256) : ℕ) : ℚ) + 0) = (2 : Fin 256) := by
      rw [harg]
      apply Fin.ext
      rw [satCastU8_val_intCast 2 (by norm_num) (by norm_num)]
      rfl
    have key : applyProcessing idOps contrastOnlyToggles initialParameters
        pixel200Frame = ⟨[[[(2 : Fin 256)]]]⟩ := by
      show Frame.mk [[[satCastU8 ((((1 : ℤ) : ℚ) / 100) *
        (((200 : Fin 256) : ℕ) : ℚ) + 0)]]] = Frame.mk [[[(2 : Fin 256)]]]
      rw [hpx]
    rw [key] at hcontra
    exact absurd hcontra (by decide)

/-- Claim C10: before the first capture-loop iteration exactly two frames are
consumed from the capture source, one by `openVideoRecorder` and one by
`spawnTrackbars`, so the first frame the loop displays and processes is the
third frame (index 2) of the stream, whatever the stream holds. -/
theorem preloop_consumes_two_frames (stream : ℕ → Frame) :
    ((openVideoRecorder ⟨stream, 0⟩).2).pos = 1 ∧
    (mainPreLoop ⟨stream, 0⟩).pos = 2 ∧
    firstLoopFrame ⟨stream, 0⟩ = stream 2 :=
  ⟨rfl, rfl, rfl⟩
